import Mathlib

/-!
Shallow embedding of the per-pixel computations of the coastal blue carbon
transition analysis in
`src/natcap/invest/coastal_blue_carbon/coastal_blue_carbon2.py`.

Every raster step in the source applies a numpy kernel pixel-wise over
aligned float32/uint16 rasters, so each kernel is embedded here as a function
on one pixel's values.  Float32 raster values are modelled as exact values of
a linear ordered field; the same definitions serve both `ℚ` (where all branch
conditions are decidable) and `ℝ` (which the exponential-decay emissions
formula requires, and which makes the emissions kernel and the year-loop
state noncomputable).  `numpy.isclose` with its default tolerances is
`|a - b| ≤ 1e-8 + 1e-5 * |b|`.
-/

namespace CoastalBlueCarbon

/-- `NODATA_FLOAT32 = float(numpy.finfo(numpy.float32).min)` (line 21): the
minimum finite float32, `-(2 - 2^-23) * 2^127 = -(2^128 - 2^104)`, exactly
representable in any field. -/
def NODATA_FLOAT32 {K : Type} [LinearOrderedField K] : K := -(2 ^ 128 - 2 ^ 104)

/-- `NODATA_UINT16 = int(numpy.iinfo(numpy.uint16).max)` (line 22). -/
def NODATA_UINT16 : ℕ := 65535

/-- Default absolute tolerance of `numpy.isclose`. -/
def atol {K : Type} [LinearOrderedField K] : K := 1 / 10 ^ 8

/-- Default relative tolerance of `numpy.isclose`. -/
def rtol {K : Type} [LinearOrderedField K] : K := 1 / 10 ^ 5

/-- `numpy.isclose(a, b)` with default tolerances, used throughout the
module for nodata tests and for the zero half-life test. -/
def isclose {K : Type} [LinearOrderedField K] (a b : K) : Prop :=
  |a - b| ≤ atol + rtol * |b|

instance isclose_dec {K : Type} [LinearOrderedField K] (a b : K) :
    Decidable (isclose a b) :=
  inferInstanceAs (Decidable (|a - b| ≤ atol + rtol * |b|))

/-- Pixel kernel of `_record_sequestration` inside
`_calculate_net_sequestration` (lines 869-900).  The target starts at 0;
where the accumulation value is valid it is added; where the emissions value
is valid the target is overwritten by the negated emissions value (the
source comments: "If there are pixel values on both matrices, emissions will
take precedent"); where neither input is valid the output is nodata.  Both
input rasters carry the `NODATA_FLOAT32` nodata value in this pipeline. -/
def record_sequestration {K : Type} [LinearOrderedField K]
    (accum emissions : K) : K :=
  let afterAccum : K := if ¬ isclose accum NODATA_FLOAT32 then 0 + accum else 0
  let afterEmissions : K :=
    if ¬ isclose emissions NODATA_FLOAT32 then -emissions else afterAccum
  if ¬ (¬ isclose accum NODATA_FLOAT32 ∨ ¬ isclose emissions NODATA_FLOAT32)
  then NODATA_FLOAT32
  else afterEmissions

/-- Pixel-wise form of the per-raster loop in `_sum_n_rasters`
(lines 978-992): the valid flag is and-ed with the validity of each value in
turn, a value is added to the running sum only while the stack is still
valid, and `touched` records whether any prefix was valid. -/
def sum_n_loop {K : Type} [LinearOrderedField K] :
    List K → K → Bool → Bool → K × Bool × Bool
  | [], acc, valid, touched => (acc, valid, touched)
  | v :: rest, acc, valid, touched =>
    let valid' := valid && (if isclose v NODATA_FLOAT32 then false else true)
    let acc' := if valid' then acc + v else acc
    let touched' := touched || valid'
    sum_n_loop rest acc' valid' touched'

/-- Pixel kernel of `_sum_n_rasters` (lines 956-1003).  With
`allow_pixel_stacks_with_nodata=False` (the default) a pixel that is nodata
in any input is nodata in the output; with `True`, only pixels never touched
by a valid value become nodata.  Every raster summed by this module carries
the `NODATA_FLOAT32` nodata value. -/
def sum_n_rasters {K : Type} [LinearOrderedField K]
    (vals : List K) (allowNodata : Bool) : K :=
  let r := sum_n_loop vals 0 true false
  if allowNodata then (if r.2.2 then r.1 else NODATA_FLOAT32)
  else (if r.2.1 then r.1 else NODATA_FLOAT32)

/-- Pixel value of the disturbance volume raster
(`execute_transition_analysis` lines 187-199): the task evaluates the raster
expression `"magnitude*stocks"` through
`pygeoprocessing.symbolic.evaluate_raster_calculator_expression` with target
nodata `NODATA_FLOAT32`.  That collaborator is external to this repository;
per its interface (the spec's Raster Algebra Primitive) it computes the
expression where every input is valid and propagates nodata elsewhere. -/
def disturbance_volume {K : Type} [LinearOrderedField K]
    (magnitude stocks : K) : K :=
  if isclose magnitude NODATA_FLOAT32 ∨ isclose stocks NODATA_FLOAT32
  then NODATA_FLOAT32
  else magnitude * stocks

/-- Pixel kernel of `_track_transition_year` inside
`_track_latest_transition_year` (lines 827-854).  The target starts unset
(`NODATA_UINT16`); if a prior-years raster exists, valid prior years are
kept; pixels whose current disturbance volume is valid and not close to zero
are overwritten with the current transition year. -/
def track_transition_year {K : Type} [LinearOrderedField K]
    (vol : K) (prior : Option ℕ) (currentYear : ℕ) : ℕ :=
  let base : ℕ :=
    match prior with
    | none => NODATA_UINT16
    | some p =>
      if isclose (p : K) ((NODATA_UINT16 : ℕ) : K) then NODATA_UINT16 else p
  if ¬ isclose vol NODATA_FLOAT32 ∧ ¬ isclose vol 0 then currentYear else base

/-- Pixel kernel of `_calculate_emissions` (lines 908-953).  Pixels whose
half-life is close to zero emit 0 (the final unconditional overwrite, line
951); valid pixels (disturbed volume not nodata, year of disturbance set,
half-life not close to zero) emit
`disturbed * (0.5^((dt-1)/halflife) - 0.5^(dt/halflife))` with
`dt = current_year - year_of_last_disturbance`; all other pixels are nodata.
Real exponentiation makes this the one kernel that must live in `ℝ`. -/
noncomputable def calculate_emissions
    (disturbed : ℝ) (yearOfDisturbance : ℕ) (halflife : ℝ)
    (currentYear : ℕ) : ℝ :=
  if isclose halflife 0 then 0
  else if ¬ isclose disturbed NODATA_FLOAT32 ∧ yearOfDisturbance ≠ NODATA_UINT16
  then
    disturbed *
      ((1 / 2 : ℝ) ^ ((((currentYear : ℝ) - (yearOfDisturbance : ℝ)) - 1) / halflife) -
       (1 / 2 : ℝ) ^ (((currentYear : ℝ) - (yearOfDisturbance : ℝ)) / halflife))
  else NODATA_FLOAT32

/-- Per-pixel, per-pool inputs of `execute_transition_analysis`
(lines 66-139): the transition years, the per-transition-year disturbance
magnitude, half-life and annual accumulation raster values, the stock at the
year before the first transition (lines 102-108), and the baseline annual
accumulation, which the source also installs as the net sequestration value
of the year before the first transition (lines 109-115). -/
structure CBCConfig where
  firstTransition : ℕ
  transitionYears : List ℕ
  magnitude : ℕ → ℝ
  halflife : ℕ → ℝ
  accum : ℕ → ℝ
  stockAtFirstTransition : ℝ
  baselineAccum : ℝ

/-- Per-pixel state threaded through the year loop of
`execute_transition_analysis` for one of the soil/biomass pools: this year's
stock, net sequestration and emissions values, the current transition year,
and the disturbance volume and year-of-latest-disturbance values of the
current transition (the only disturbance data the emissions step ever reads,
lines 236-243). -/
structure PixelState where
  stock : ℝ
  netseq : ℝ
  curT : ℕ
  vol : ℝ
  yod : ℕ
  emis : ℝ

/-- State at the year before the first transition (lines 102-115): the stock
and net sequestration rasters are seeded from the arguments; no disturbance
volume, year-of-disturbance or emissions raster exists yet, and the first
loop year is a transition year, so the placeholder values in those fields
are overwritten before first use. -/
noncomputable def initialState (cfg : CBCConfig) : PixelState :=
  { stock := cfg.stockAtFirstTransition
    netseq := cfg.baselineAccum
    curT := 0
    vol := NODATA_FLOAT32
    yod := NODATA_UINT16
    emis := NODATA_FLOAT32 }

/-- One iteration of the year loop of `execute_transition_analysis`
(lines 140-269) at one pixel: stock is the `_sum_n_rasters` of last year's
stock and net sequestration (lines 165-172); at a transition year the
disturbance volume (magnitude times last year's stock, lines 187-199) and
the year-of-latest-disturbance (lines 206-226, with no prior raster at the
first transition) are recomputed and the current transition year switches;
emissions always read the current transition's disturbance volume,
year-of-disturbance and half-life rasters (lines 236-253); net sequestration
combines the current regime's accumulation with this year's emissions
(lines 255-269). -/
noncomputable def stepYear (cfg : CBCConfig) (s : PixelState) (year : ℕ) :
    PixelState :=
  let stockNext := sum_n_rasters [s.stock, s.netseq] false
  if year ∈ cfg.transitionYears then
    let vol := disturbance_volume (cfg.magnitude year) s.stock
    let prior : Option ℕ :=
      if year = cfg.firstTransition then none else some s.yod
    let yod := track_transition_year vol prior year
    let emis := calculate_emissions vol yod (cfg.halflife year) year
    { stock := stockNext
      netseq := record_sequestration (cfg.accum year) emis
      curT := year
      vol := vol
      yod := yod
      emis := emis }
  else
    let emis := calculate_emissions s.vol s.yod (cfg.halflife s.curT) year
    { stock := stockNext
      netseq := record_sequestration (cfg.accum s.curT) emis
      curT := s.curT
      vol := s.vol
      yod := s.yod
      emis := emis }

/-- Pixel state after `k` iterations of the year loop: `simState cfg k`
holds the rasters of year `firstTransition - 1 + k` (the loop runs over
`range(first_transition_year, final_year + 1)`, line 140). -/
noncomputable def simState (cfg : CBCConfig) : ℕ → PixelState
  | 0 => initialState cfg
  | k + 1 => stepYear cfg (simState cfg k) (cfg.firstTransition + k)

/-- The raster list built by the summary loop of
`execute_transition_analysis` (lines 316-322) at one pixel, for the two
pools that have emissions rasters: for each `_year` in
`range(current_transition_year, year + 1)` the source extends the list with
`emissions_rasters[year].values()` — note the loop variable `_year` is not
the index used. -/
def collect_since_transition {K : Type} [LinearOrderedField K]
    (emSoil emBio : ℕ → K) (currentT year : ℕ) : List K :=
  (List.range' currentT (year + 1 - currentT)).foldl
    (fun acc _year => acc ++ [emSoil year, emBio year]) []

/-- Pixel value of the emissions-since-transition summary raster
(lines 324-336): `_sum_n_rasters` over the collected raster list.  The
net-sequestration summary (lines 362-377) is built from a list collected by
the same loop. -/
def emissions_summary {K : Type} [LinearOrderedField K]
    (emSoil emBio : ℕ → K) (currentT year : ℕ) : K :=
  sum_n_rasters (collect_since_transition emSoil emBio currentT year) false

/-- Spec-side comparator for the summary raster, following the spec's words:
the summary emitted at the last year of a regime is the pixel-wise sum, over
each individual year of the regime, of that year's per-pool emissions
rasters, each year contributing its own rasters exactly once. -/
def emissions_summary_spec {K : Type} [LinearOrderedField K]
    (emSoil emBio : ℕ → K) (currentT year : ℕ) : K :=
  ((List.range' currentT (year + 1 - currentT)).map
    (fun y => emSoil y + emBio y)).sum

/-- Pixel value of the total carbon stock raster (lines 271-285): the source
sums the soil stock raster, the biomass stock raster, and the litter
**annual accumulation rate** raster
`yearly_accum_rasters[current_transition_year][POOL_LITTER]` with
`_sum_n_rasters`. -/
def total_carbon_stocks {K : Type} [LinearOrderedField K]
    (soilStock biomassStock litterAnnualAccum : K) : K :=
  sum_n_rasters [soilStock, biomassStock, litterAnnualAccum] false

/-- Modelled from the spec: the litter pool's accumulated stock.  The
transition loop of the source never produces litter stock rasters (its pool
loop at line 148 covers only soil and biomass), so the spec's description is
used: litter never disturbs and never decays, and its stock accrues
additively at the annual accumulation rate. -/
def litter_stock_spec {K : Type} [LinearOrderedField K]
    (initial rate : K) (years : ℕ) : K :=
  initial + rate * (years : K)

/-- Scenario for claim C2: a pixel disturbed at the first transition
(year 5: magnitude 0.4, prior stock 100, accumulation 5, half-life 2)
followed by a second transition at year 6 that disturbs nothing there
(magnitude 0). -/
noncomputable def c2Config : CBCConfig :=
  { firstTransition := 5
    transitionYears := [5, 6]
    magnitude := fun year => if year = 5 then 2 / 5 else 0
    halflife := fun _ => 2
    accum := fun year => if year = 5 then 5 else 0
    stockAtFirstTransition := 100
    baselineAccum := 5 }

/-- Simple single-transition scenario used to witness the stock accretion
law at a concrete pixel. -/
noncomputable def c5Config : CBCConfig :=
  { firstTransition := 5
    transitionYears := [5]
    magnitude := fun _ => 0
    halflife := fun _ => 1
    accum := fun _ => 5
    stockAtFirstTransition := 100
    baselineAccum := 5 }

/-- A nonnegative value is never close to the (hugely negative) float32
nodata sentinel. -/
theorem not_isclose_nodata_of_nonneg {K : Type} [LinearOrderedField K] {x : K}
    (hx : 0 ≤ x) : ¬ isclose x NODATA_FLOAT32 := by
  unfold isclose NODATA_FLOAT32 atol rtol
  rw [sub_neg_eq_add, abs_neg,
    abs_of_nonneg (show (0 : K) ≤ 2 ^ 128 - 2 ^ 104 by norm_num),
    abs_of_nonneg (add_nonneg hx (show (0 : K) ≤ 2 ^ 128 - 2 ^ 104 by norm_num))]
  intro h
  have hlt : (1 : K) / 10 ^ 8 + 1 / 10 ^ 5 * (2 ^ 128 - 2 ^ 104) <
      2 ^ 128 - 2 ^ 104 := by norm_num
  linarith

/-- The nodata sentinel is close to itself. -/
theorem isclose_nodata_self {K : Type} [LinearOrderedField K] :
    isclose (NODATA_FLOAT32 : K) NODATA_FLOAT32 := by
  unfold isclose
  rw [sub_self, abs_zero]
  unfold atol rtol NODATA_FLOAT32
  positivity

/-- A value above the absolute tolerance is not close to zero. -/
theorem not_isclose_zero_of_pos {K : Type} [LinearOrderedField K] {x : K}
    (hx : (1 : K) / 10 ^ 8 < x) : ¬ isclose x 0 := by
  unfold isclose atol rtol
  rw [sub_zero, abs_zero, mul_zero, add_zero,
    abs_of_nonneg (le_of_lt (lt_trans (by norm_num) hx))]
  exact not_le.mpr hx

/-- A nonnegative value at or below the absolute tolerance is close to
zero. -/
theorem isclose_zero_of_small {K : Type} [LinearOrderedField K] {x : K}
    (h0 : 0 ≤ x) (h1 : x ≤ (1 : K) / 10 ^ 8) : isclose x 0 := by
  unfold isclose atol rtol
  rw [sub_zero, abs_zero, mul_zero, add_zero, abs_of_nonneg h0]
  exact h1

/-- For natural-valued rasters, closeness to the uint16 nodata sentinel is
exact equality with it (the tolerance radius around 65535 is below 1). -/
theorem isclose_natCast_uint16_iff {K : Type} [LinearOrderedField K] (p : ℕ) :
    isclose (p : K) ((NODATA_UINT16 : ℕ) : K) ↔ p = NODATA_UINT16 := by
  unfold isclose NODATA_UINT16 atol rtol
  push_cast
  constructor
  · intro h
    by_contra hne
    rw [abs_of_nonneg (show (0 : K) ≤ 65535 by norm_num)] at h
    have h1 : |(p : K) - 65535| < 1 := lt_of_le_of_lt h (by norm_num)
    rw [abs_lt] at h1
    have hlow : (65534 : ℕ) < p := by
      have hc : ((65534 : ℕ) : K) < (p : K) := by push_cast; linarith [h1.1]
      exact_mod_cast hc
    have hhigh : p < 65536 := by
      have hc : (p : K) < ((65536 : ℕ) : K) := by push_cast; linarith [h1.2]
      exact_mod_cast hc
    omega
  · intro h
    subst h
    push_cast
    rw [sub_self, abs_zero, abs_of_nonneg (show (0 : K) ≤ 65535 by norm_num)]
    positivity

/-- Zero is close to zero. -/
theorem isclose_zero_zero : isclose (0 : ℝ) 0 :=
  isclose_zero_of_small le_rfl (by norm_num)

/-- Invariant of the `_sum_n_rasters` per-raster loop when every value in
the stack is valid: the sum accumulates left to right and the valid flag
stays set. -/
theorem sum_n_loop_all_valid {K : Type} [LinearOrderedField K] :
    ∀ (xs : List K) (acc : K) (touched : Bool),
      (∀ x ∈ xs, ¬ isclose x NODATA_FLOAT32) →
      sum_n_loop xs acc true touched =
        (xs.foldl (fun s v => s + v) acc, true, touched || decide (xs ≠ [])) := by
  intro xs
  induction xs with
  | nil => intro acc touched _; simp [sum_n_loop]
  | cons v rest ih =>
    intro acc touched h
    have hv : ¬ isclose v NODATA_FLOAT32 := h v (List.mem_cons_self v rest)
    simp only [sum_n_loop, if_neg hv, Bool.and_true, if_true]
    rw [ih (acc + v) (touched || true) (fun x hx => h x (List.mem_cons_of_mem v hx))]
    simp

/-- `_sum_n_rasters` on an all-valid pixel stack is the plain sum. -/
theorem sum_n_all_valid {K : Type} [LinearOrderedField K] (xs : List K)
    (h : ∀ x ∈ xs, ¬ isclose x NODATA_FLOAT32) :
    sum_n_rasters xs false = xs.foldl (fun s v => s + v) 0 := by
  unfold sum_n_rasters
  rw [sum_n_loop_all_valid xs 0 false h]
  simp

/-- `_sum_n_rasters` of two valid values is their sum. -/
theorem sum_n_pair {K : Type} [LinearOrderedField K] {a b : K}
    (ha : ¬ isclose a NODATA_FLOAT32) (hb : ¬ isclose b NODATA_FLOAT32) :
    sum_n_rasters [a, b] false = a + b := by
  rw [sum_n_all_valid [a, b] (by
    intro x hx
    rcases List.mem_cons.mp hx with rfl | hx
    · exact ha
    · rcases List.mem_cons.mp hx with rfl | hx
      · exact hb
      · exact absurd hx (List.not_mem_nil x))]
  simp [List.foldl]

/-- Disturbance volume of the C2 pixel at the first transition (year 5):
0.4 of the prior stock of 100. -/
theorem c2_vol1 : (simState c2Config 1).vol = 40 := by
  show disturbance_volume (c2Config.magnitude 5) ((initialState c2Config).stock) = 40
  show disturbance_volume ((2 : ℝ) / 5) 100 = 40
  unfold disturbance_volume
  rw [if_neg]
  · norm_num
  · rintro (h | h)
    · exact not_isclose_nodata_of_nonneg (by norm_num) h
    · exact not_isclose_nodata_of_nonneg (by norm_num) h

/-- The C2 pixel's year-of-latest-disturbance after the first transition is
year 5. -/
theorem c2_yod1 : (simState c2Config 1).yod = 5 := by
  show track_transition_year (disturbance_volume (c2Config.magnitude 5)
    ((initialState c2Config).stock)) none 5 = 5
  have hv : disturbance_volume (c2Config.magnitude 5)
      ((initialState c2Config).stock) = 40 := c2_vol1
  rw [hv]
  unfold track_transition_year
  rw [if_pos]
  exact ⟨not_isclose_nodata_of_nonneg (by norm_num),
    not_isclose_zero_of_pos (by norm_num)⟩

/-- The C2 pixel's stock at year 5 is the prior stock plus the baseline
accumulation. -/
theorem c2_stock1 : (simState c2Config 1).stock = 105 := by
  show sum_n_rasters [(initialState c2Config).stock,
    (initialState c2Config).netseq] false = 105
  show sum_n_rasters [(100 : ℝ), 5] false = 105
  rw [sum_n_pair (not_isclose_nodata_of_nonneg (by norm_num))
    (not_isclose_nodata_of_nonneg (by norm_num))]
  norm_num

/-- Disturbance volume of the C2 pixel at the second transition (year 6) is
zero: the magnitude there is zero. -/
theorem c2_vol2 : (simState c2Config 2).vol = 0 := by
  show disturbance_volume (c2Config.magnitude 6) ((simState c2Config 1).stock) = 0
  rw [c2_stock1]
  show disturbance_volume (0 : ℝ) 105 = 0
  unfold disturbance_volume
  rw [if_neg]
  · norm_num
  · rintro (h | h)
    · exact not_isclose_nodata_of_nonneg (by norm_num) h
    · exact not_isclose_nodata_of_nonneg (by norm_num) h

/-- The C2 pixel's year-of-latest-disturbance after the second transition is
still year 5: the zero disturbance volume at year 6 keeps the prior year. -/
theorem c2_yod2 : (simState c2Config 2).yod = 5 := by
  show track_transition_year
    (disturbance_volume (c2Config.magnitude 6) ((simState c2Config 1).stock))
    (some ((simState c2Config 1).yod)) 6 = 5
  rw [c2_stock1]
  have hv : disturbance_volume (c2Config.magnitude 6) (105 : ℝ) = 0 := by
    show disturbance_volume (0 : ℝ) 105 = 0
    unfold disturbance_volume
    rw [if_neg]
    · norm_num
    · rintro (h | h)
      · exact not_isclose_nodata_of_nonneg (by norm_num) h
      · exact not_isclose_nodata_of_nonneg (by norm_num) h
  rw [hv, c2_yod1]
  unfold track_transition_year
  rw [if_neg]
  · show (if isclose ((5 : ℕ) : ℝ) ((NODATA_UINT16 : ℕ) : ℝ)
      then NODATA_UINT16 else 5) = 5
    rw [if_neg]
    intro h
    have h5 := (@isclose_natCast_uint16_iff ℝ _ 5).mp h
    norm_num [NODATA_UINT16] at h5
  · rintro ⟨-, h0⟩
    exact h0 (isclose_zero_of_small le_rfl (by norm_num))

/-- The C2 pixel's emissions at year 7 are zero, because the emissions step
reads the (zero) disturbance volume of the current transition only. -/
theorem c2_emis3 : (simState c2Config 3).emis = 0 := by
  show calculate_emissions ((simState c2Config 2).vol) ((simState c2Config 2).yod)
    (c2Config.halflife ((simState c2Config 2).curT)) 7 = 0
  rw [c2_vol2, c2_yod2]
  show calculate_emissions 0 5 2 7 = 0
  unfold calculate_emissions
  rw [if_neg (not_isclose_zero_of_pos (by norm_num)), if_pos]
  · exact zero_mul _
  · exact ⟨not_isclose_nodata_of_nonneg le_rfl, by simp [NODATA_UINT16]⟩

/-- C1 counterexample: at a pixel where both the accumulation value (5) and
the emissions value (24) are valid, the net sequestration kernel produces
-24, not the claimed accumulation minus emissions (5 - 24 = -19). -/
theorem c1_counterexample_accum_minus_emissions :
    ¬ isclose (5 : ℚ) NODATA_FLOAT32 ∧ ¬ isclose (24 : ℚ) NODATA_FLOAT32 ∧
    record_sequestration (5 : ℚ) 24 = -24 ∧
    record_sequestration (5 : ℚ) 24 ≠ 5 - 24 := by
  have h5 : ¬ isclose (5 : ℚ) NODATA_FLOAT32 :=
    not_isclose_nodata_of_nonneg (by norm_num)
  have h24 : ¬ isclose (24 : ℚ) NODATA_FLOAT32 :=
    not_isclose_nodata_of_nonneg (by norm_num)
  have hval : record_sequestration (5 : ℚ) 24 = -24 := by
    simp only [record_sequestration]
    rw [if_neg (not_not_intro (Or.inr h24)), if_pos h24]
  refine ⟨h5, h24, hval, ?_⟩
  rw [hval]
  norm_num

/-- C1 (amended): wherever the year's emissions raster holds a valid value,
the net sequestration kernel outputs the negated emissions value — emissions
take precedence and the accumulation value is ignored at such pixels. -/
theorem c1_net_sequestration_emissions_precedence (accum emissions : ℚ)
    (he : ¬ isclose emissions NODATA_FLOAT32) :
    record_sequestration accum emissions = -emissions := by
  simp only [record_sequestration]
  rw [if_neg (not_not_intro (Or.inr he)), if_pos he]

/-- C1 witness: the amended statement at the spec scenario's year-6 values
(accumulation 5, emissions 24). -/
theorem c1_net_sequestration_emissions_precedence_witness :
    ¬ isclose (24 : ℚ) NODATA_FLOAT32 ∧
    record_sequestration (5 : ℚ) 24 = -24 := by
  have h24 : ¬ isclose (24 : ℚ) NODATA_FLOAT32 :=
    not_isclose_nodata_of_nonneg (by norm_num)
  exact ⟨h24, c1_net_sequestration_emissions_precedence 5 24 h24⟩

/-- C2: in the two-transition scenario, the pixel is disturbed at year 5
(volume 40, half-life 2, so its carbon is far from fully decayed), the
second transition at year 6 disturbs nothing there (volume 0, and the
year-of-latest-disturbance is kept at 5), yet the emissions at year 7 are 0:
the emissions step reads only the current transition's disturbance-volume
raster, so carbon disturbed at the earlier transition stops emitting. -/
theorem c2_emissions_ignore_prior_disturbance :
    (simState c2Config 1).vol = 40 ∧ (simState c2Config 1).yod = 5 ∧
    (simState c2Config 2).vol = 0 ∧ (simState c2Config 2).yod = 5 ∧
    (simState c2Config 3).emis = 0 :=
  ⟨c2_vol1, c2_yod1, c2_vol2, c2_yod2, c2_emis3⟩

/-- C3 counterexample: the half-life 1e-9 is strictly positive, yet the
emissions kernel outputs 0 there (1e-9 is within the `numpy.isclose` zero
tolerance), while the claimed formula value at disturbed volume 48, year of
disturbance 5 and current year 6 is nonzero. -/
theorem c3_counterexample_tolerance_zero_halflife :
    (0 : ℝ) < 1 / 10 ^ 9 ∧
    calculate_emissions 48 5 (1 / 10 ^ 9) 6 = 0 ∧
    (48 : ℝ) *
        ((1 / 2 : ℝ) ^ ((((6 : ℕ) : ℝ) - ((5 : ℕ) : ℝ) - 1) / (1 / 10 ^ 9)) -
         (1 / 2 : ℝ) ^ ((((6 : ℕ) : ℝ) - ((5 : ℕ) : ℝ)) / (1 / 10 ^ 9))) ≠ 0 := by
  refine ⟨by norm_num, ?_, ?_⟩
  · unfold calculate_emissions
    rw [if_pos (isclose_zero_of_small (by norm_num) (by norm_num))]
  · have h0 : ((((6 : ℕ) : ℝ) - ((5 : ℕ) : ℝ)) - 1) / (1 / 10 ^ 9) = 0 := by
      push_cast
      norm_num
    have h1 : (((6 : ℕ) : ℝ) - ((5 : ℕ) : ℝ)) / (1 / 10 ^ 9) = ((10 ^ 9 : ℕ) : ℝ) := by
      push_cast
      norm_num
    rw [h0, h1, Real.rpow_zero, Real.rpow_natCast]
    have key : ∀ b : ℝ, b < 1 → (48 : ℝ) * (1 - b) ≠ 0 := by
      intro b hb1
      have h : (0 : ℝ) < 48 * (1 - b) := by nlinarith
      exact h.ne'
    exact key _ (pow_lt_one₀ (by norm_num) (by norm_num) (by norm_num))

/-- C3 (amended): for every pixel whose disturbance volume is valid, whose
year of disturbance is set, and whose half-life is not within the floating
tolerance of zero, the emissions value is
`disturbed * (0.5^((dt-1)/halflife) - 0.5^(dt/halflife))` with
`dt = current year - year of latest disturbance`; and in the year loop the
emissions of every simulated year are exactly this kernel applied to the
current transition's disturbance data at that year. -/
theorem c3_emissions_decay_formula :
    (∀ (disturbed : ℝ) (yod : ℕ) (halflife : ℝ) (year : ℕ),
      ¬ isclose disturbed NODATA_FLOAT32 → yod ≠ NODATA_UINT16 →
      ¬ isclose halflife 0 →
      calculate_emissions disturbed yod halflife year =
        disturbed *
          ((1 / 2 : ℝ) ^ ((((year : ℝ) - (yod : ℝ)) - 1) / halflife) -
           (1 / 2 : ℝ) ^ (((year : ℝ) - (yod : ℝ)) / halflife))) ∧
    (∀ (cfg : CBCConfig) (k : ℕ),
      (simState cfg (k + 1)).emis =
        calculate_emissions (simState cfg (k + 1)).vol (simState cfg (k + 1)).yod
          (cfg.halflife (simState cfg (k + 1)).curT) (cfg.firstTransition + k)) := by
  constructor
  · intro d yod h year hd hy hh
    unfold calculate_emissions
    rw [if_neg hh, if_pos ⟨hd, hy⟩]
  · intro cfg k
    show (stepYear cfg (simState cfg k) (cfg.firstTransition + k)).emis = _
    conv_rhs => rw [show simState cfg (k + 1) =
      stepYear cfg (simState cfg k) (cfg.firstTransition + k) from rfl]
    unfold stepYear
    split
    · rfl
    · rfl

/-- C3 witness: the formula at the spec scenario's values (disturbed volume
48, year of disturbance 5, half-life 2, current year 6). -/
theorem c3_emissions_decay_formula_witness :
    ¬ isclose (48 : ℝ) NODATA_FLOAT32 ∧ (5 : ℕ) ≠ NODATA_UINT16 ∧
    ¬ isclose (2 : ℝ) 0 ∧
    calculate_emissions 48 5 2 6 =
      48 * ((1 / 2 : ℝ) ^ ((((6 : ℕ) : ℝ) - ((5 : ℕ) : ℝ) - 1) / 2) -
        (1 / 2 : ℝ) ^ ((((6 : ℕ) : ℝ) - ((5 : ℕ) : ℝ)) / 2)) := by
  have h1 : ¬ isclose (48 : ℝ) NODATA_FLOAT32 :=
    not_isclose_nodata_of_nonneg (by norm_num)
  have h2 : (5 : ℕ) ≠ NODATA_UINT16 := by norm_num [NODATA_UINT16]
  have h3 : ¬ isclose (2 : ℝ) 0 := not_isclose_zero_of_pos (by norm_num)
  exact ⟨h1, h2, h3, c3_emissions_decay_formula.1 48 5 2 6 h1 h2 h3⟩

/-- C4: in a regime running from transition year 5 through year 6, with
per-pool emissions of 10 at year 5 and 24 at year 6 in one pool (0 in the
other), the implemented summary is 48 (the final year's rasters summed once
per regime year) while the spec's summary — each year's rasters exactly
once — is 34. -/
theorem c4_summary_counts_final_year_repeatedly :
    emissions_summary (fun y => if y = 6 then (24 : ℚ) else 10)
      (fun _ => (0 : ℚ)) 5 6 = 48 ∧
    emissions_summary_spec (fun y => if y = 6 then (24 : ℚ) else 10)
      (fun _ => (0 : ℚ)) 5 6 = 34 ∧
    (48 : ℚ) ≠ 34 := by
  refine ⟨?_, ?_, by norm_num⟩
  · have hcollect : collect_since_transition (fun y => if y = 6 then (24 : ℚ) else 10)
        (fun _ => (0 : ℚ)) 5 6 = [24, 0, 24, 0] := rfl
    unfold emissions_summary
    rw [hcollect, sum_n_all_valid [24, 0, 24, 0] ?hv]
    · simp [List.foldl]
      norm_num
    · intro x hx
      simp only [List.mem_cons, List.not_mem_nil, or_false] at hx
      rcases hx with rfl | rfl | rfl | rfl
      · exact not_isclose_nodata_of_nonneg (by norm_num)
      · exact not_isclose_nodata_of_nonneg (by norm_num)
      · exact not_isclose_nodata_of_nonneg (by norm_num)
      · exact not_isclose_nodata_of_nonneg (by norm_num)
  · have hrange : List.range' 5 (6 + 1 - 5) = [5, 6] := rfl
    unfold emissions_summary_spec
    rw [hrange]
    norm_num [List.map, List.sum]

/-- C5: for every configuration and every simulated year, wherever the
previous year's stock and net sequestration values are valid, this year's
stock value is exactly their sum (the `_sum_n_rasters` of the two
rasters). -/
theorem c5_stock_accretion_law (cfg : CBCConfig) (k : ℕ)
    (hs : ¬ isclose (simState cfg k).stock NODATA_FLOAT32)
    (hn : ¬ isclose (simState cfg k).netseq NODATA_FLOAT32) :
    (simState cfg (k + 1)).stock =
      (simState cfg k).stock + (simState cfg k).netseq := by
  show (stepYear cfg (simState cfg k) (cfg.firstTransition + k)).stock = _
  unfold stepYear
  split
  · exact sum_n_pair hs hn
  · exact sum_n_pair hs hn

/-- C5 witness: the stock accretion law at the concrete single-transition
pixel (stock 100, net sequestration 5). -/
theorem c5_stock_accretion_law_witness :
    ¬ isclose (simState c5Config 0).stock NODATA_FLOAT32 ∧
    ¬ isclose (simState c5Config 0).netseq NODATA_FLOAT32 ∧
    (simState c5Config 1).stock =
      (simState c5Config 0).stock + (simState c5Config 0).netseq := by
  have hs : ¬ isclose (simState c5Config 0).stock NODATA_FLOAT32 :=
    not_isclose_nodata_of_nonneg (show (0 : ℝ) ≤ (simState c5Config 0).stock from by
      show (0 : ℝ) ≤ 100
      norm_num)
  have hn : ¬ isclose (simState c5Config 0).netseq NODATA_FLOAT32 :=
    not_isclose_nodata_of_nonneg (show (0 : ℝ) ≤ (simState c5Config 0).netseq from by
      show (0 : ℝ) ≤ 5
      norm_num)
  exact ⟨hs, hn, c5_stock_accretion_law c5Config 0 hs hn⟩

/-- C6 counterexample: the disturbance volume 1e-9 is valid and nonzero,
yet the year-of-disturbance kernel keeps the prior year 5 instead of
overwriting it with the current transition year 7, because 1e-9 is within
the `numpy.isclose` zero tolerance. -/
theorem c6_counterexample_tolerance_zero_volume :
    (1 / 10 ^ 9 : ℚ) ≠ 0 ∧ ¬ isclose (1 / 10 ^ 9 : ℚ) NODATA_FLOAT32 ∧
    track_transition_year (1 / 10 ^ 9 : ℚ) (some 5) 7 = 5 ∧ (5 : ℕ) ≠ 7 := by
  have hnod : ¬ isclose (1 / 10 ^ 9 : ℚ) NODATA_FLOAT32 :=
    not_isclose_nodata_of_nonneg (by norm_num)
  have htrack : track_transition_year (1 / 10 ^ 9 : ℚ) (some 5) 7 = 5 := by
    unfold track_transition_year
    rw [if_neg]
    · show (if isclose ((5 : ℕ) : ℚ) ((NODATA_UINT16 : ℕ) : ℚ)
        then NODATA_UINT16 else 5) = 5
      rw [if_neg]
      intro h
      have h5 := (@isclose_natCast_uint16_iff ℚ _ 5).mp h
      norm_num [NODATA_UINT16] at h5
    · rintro ⟨-, h0⟩
      exact h0 (isclose_zero_of_small (by norm_num) (by norm_num))
  exact ⟨by norm_num, hnod, htrack, by norm_num⟩

/-- C6 (amended): for a pixel with a set prior disturbance year `p` earlier
than the current transition year, the tracked year never decreases below
`p`, never returns to the unset sentinel, and is overwritten with the
current transition year exactly when the current disturbance volume is
valid and not within the floating tolerance of zero. -/
theorem c6_disturbance_year_monotonic (vol : ℚ) (p year : ℕ)
    (hp : p < year) (hy : year < NODATA_UINT16) :
    p ≤ track_transition_year vol (some p) year ∧
    track_transition_year vol (some p) year ≠ NODATA_UINT16 ∧
    (track_transition_year vol (some p) year = year ↔
      (¬ isclose vol NODATA_FLOAT32 ∧ ¬ isclose vol 0)) := by
  have hbase : (if isclose ((p : ℚ)) ((NODATA_UINT16 : ℕ) : ℚ)
      then NODATA_UINT16 else p) = p :=
    if_neg (fun h => by
      have h2 := (@isclose_natCast_uint16_iff ℚ _ p).mp h
      omega)
  by_cases hc : ¬ isclose vol NODATA_FLOAT32 ∧ ¬ isclose vol 0
  · have ht : track_transition_year vol (some p) year = year := by
      unfold track_transition_year
      rw [if_pos hc]
    rw [ht]
    exact ⟨le_of_lt hp, by omega, by simp [hc]⟩
  · have ht : track_transition_year vol (some p) year = p := by
      unfold track_transition_year
      rw [if_neg hc]
      exact hbase
    rw [ht]
    refine ⟨le_refl p, by omega, ?_⟩
    constructor
    · intro h
      omega
    · intro h
      exact absurd h hc

/-- C6 witness: a pixel disturbed before (year 5) and disturbed again with
volume 48 at transition year 7 is moved forward to year 7. -/
theorem c6_disturbance_year_monotonic_witness :
    (5 : ℕ) < 7 ∧ (7 : ℕ) < NODATA_UINT16 ∧
    (5 ≤ track_transition_year (48 : ℚ) (some 5) 7 ∧
     track_transition_year (48 : ℚ) (some 5) 7 ≠ NODATA_UINT16 ∧
     (track_transition_year (48 : ℚ) (some 5) 7 = 7 ↔
       (¬ isclose (48 : ℚ) NODATA_FLOAT32 ∧ ¬ isclose (48 : ℚ) 0))) := by
  have hp : (5 : ℕ) < 7 := by norm_num
  have hy : (7 : ℕ) < NODATA_UINT16 := by norm_num [NODATA_UINT16]
  exact ⟨hp, hy, c6_disturbance_year_monotonic 48 5 7 hp hy⟩

/-- C7: a pixel whose half-life is within the floating tolerance of zero
emits exactly 0 whatever the disturbance volume and year of disturbance. -/
theorem c7_zero_halflife_zero_emissions (disturbed : ℝ) (yod : ℕ)
    (halflife : ℝ) (year : ℕ) (hh : isclose halflife 0) :
    calculate_emissions disturbed yod halflife year = 0 := by
  unfold calculate_emissions
  rw [if_pos hh]

/-- C7 witness: zero emissions at half-life 0 with disturbed volume 48. -/
theorem c7_zero_halflife_zero_emissions_witness :
    isclose (0 : ℝ) 0 ∧ calculate_emissions 48 5 0 6 = 0 :=
  ⟨isclose_zero_zero, c7_zero_halflife_zero_emissions 48 5 0 6 isclose_zero_zero⟩

/-- C8 counterexample: the net sequestration kernel at a pixel whose
accumulation input is nodata but whose emissions input (24) is valid outputs
-24, a value computed from a partial subset of the inputs, not nodata. -/
theorem c8_counterexample_partial_computation :
    isclose (NODATA_FLOAT32 : ℚ) NODATA_FLOAT32 ∧
    record_sequestration (NODATA_FLOAT32 : ℚ) 24 = -24 ∧
    record_sequestration (NODATA_FLOAT32 : ℚ) 24 ≠ NODATA_FLOAT32 := by
  have h24 : ¬ isclose (24 : ℚ) NODATA_FLOAT32 :=
    not_isclose_nodata_of_nonneg (by norm_num)
  have hval : record_sequestration (NODATA_FLOAT32 : ℚ) 24 = -24 := by
    simp only [record_sequestration]
    rw [if_neg (not_not_intro (Or.inr h24)), if_pos h24]
  refine ⟨isclose_nodata_self, hval, ?_⟩
  rw [hval]
  unfold NODATA_FLOAT32
  norm_num

/-- C8 (amended): the stock summation step maps any-input-nodata pixels to
nodata; the net sequestration step outputs nodata only where both inputs
are nodata; the emissions step outputs nodata where the disturbance volume
is nodata or the year of disturbance is unset, provided the half-life is
not within the zero tolerance (the zero-half-life rule otherwise forces
0). -/
theorem c8_nodata_propagation_amended :
    (∀ a b : ℚ, (isclose a NODATA_FLOAT32 ∨ isclose b NODATA_FLOAT32) →
      sum_n_rasters [a, b] false = NODATA_FLOAT32) ∧
    (∀ accum emissions : ℚ,
      isclose accum NODATA_FLOAT32 → isclose emissions NODATA_FLOAT32 →
      record_sequestration accum emissions = NODATA_FLOAT32) ∧
    (∀ (disturbed : ℝ) (yod : ℕ) (halflife : ℝ) (year : ℕ),
      ¬ isclose halflife 0 →
      (isclose disturbed NODATA_FLOAT32 ∨ yod = NODATA_UINT16) →
      calculate_emissions disturbed yod halflife year = NODATA_FLOAT32) := by
  refine ⟨?_, ?_, ?_⟩
  · intro a b h
    rcases h with ha | hb
    · simp only [sum_n_rasters, sum_n_loop, if_pos ha, Bool.and_false,
        Bool.false_and, Bool.false_or, Bool.or_false]
      simp
    · simp only [sum_n_rasters, sum_n_loop, if_pos hb, Bool.and_false,
        Bool.false_and, Bool.false_or, Bool.or_false]
      simp
  · intro a e ha he
    simp only [record_sequestration]
    rw [if_pos]
    rintro (h | h)
    · exact h ha
    · exact h he
  · intro d yod h year hh hor
    unfold calculate_emissions
    rw [if_neg hh, if_neg]
    rintro ⟨h1, h2⟩
    rcases hor with hd | hy
    · exact h1 hd
    · exact h2 hy

/-- C8 witness: nodata propagation at concrete pixels of each step. -/
theorem c8_nodata_propagation_amended_witness :
    sum_n_rasters [(NODATA_FLOAT32 : ℚ), 5] false = NODATA_FLOAT32 ∧
    record_sequestration (NODATA_FLOAT32 : ℚ) NODATA_FLOAT32 = NODATA_FLOAT32 ∧
    calculate_emissions NODATA_FLOAT32 NODATA_UINT16 2 7 = NODATA_FLOAT32 :=
  ⟨c8_nodata_propagation_amended.1 NODATA_FLOAT32 5 (Or.inl isclose_nodata_self),
   c8_nodata_propagation_amended.2.1 NODATA_FLOAT32 NODATA_FLOAT32
     isclose_nodata_self isclose_nodata_self,
   c8_nodata_propagation_amended.2.2 NODATA_FLOAT32 NODATA_UINT16 2 7
     (not_isclose_zero_of_pos (by norm_num)) (Or.inr rfl)⟩

/-- C9: the total carbon raster sums the litter annual accumulation rate
(here 1), not the litter accumulated stock (here 10 after ten years at rate
1): with soil stock 3 and biomass stock 4 the implemented total is 8, while
the claimed soil + biomass + litter stock is 17. -/
theorem c9_total_stock_uses_litter_accumulation_rate :
    total_carbon_stocks (3 : ℚ) 4 1 = 8 ∧
    litter_stock_spec (0 : ℚ) 1 10 = 10 ∧
    total_carbon_stocks (3 : ℚ) 4 1 ≠ 3 + 4 + litter_stock_spec (0 : ℚ) 1 10 := by
  have h8 : total_carbon_stocks (3 : ℚ) 4 1 = 8 := by
    unfold total_carbon_stocks
    rw [sum_n_all_valid [3, 4, 1] ?hv]
    · simp [List.foldl]
      norm_num
    · intro x hx
      simp only [List.mem_cons, List.not_mem_nil, or_false] at hx
      rcases hx with rfl | rfl | rfl
      · exact not_isclose_nodata_of_nonneg (by norm_num)
      · exact not_isclose_nodata_of_nonneg (by norm_num)
      · exact not_isclose_nodata_of_nonneg (by norm_num)
  have h10 : litter_stock_spec (0 : ℚ) 1 10 = 10 := by
    unfold litter_stock_spec
    push_cast
    norm_num
  refine ⟨h8, h10, ?_⟩
  rw [h8, h10]
  norm_num

/-- C10: a pixel whose half-life is within the floating tolerance of zero
receives the emissions value 0 — never the nodata sentinel — whatever the
disturbance volume and year-of-disturbance inputs hold, including nodata. -/
theorem c10_zero_halflife_overrides_nodata (disturbed : ℝ) (yod : ℕ)
    (halflife : ℝ) (year : ℕ) (hh : isclose halflife 0) :
    calculate_emissions disturbed yod halflife year = 0 ∧
    calculate_emissions disturbed yod halflife year ≠ NODATA_FLOAT32 := by
  unfold calculate_emissions
  rw [if_pos hh]
  refine ⟨rfl, ?_⟩
  unfold NODATA_FLOAT32
  norm_num

/-- C10 witness: half-life 0 with the disturbance volume at nodata and the
year of disturbance unset still outputs 0, not nodata. -/
theorem c10_zero_halflife_overrides_nodata_witness :
    isclose (0 : ℝ) 0 ∧
    (calculate_emissions NODATA_FLOAT32 NODATA_UINT16 0 6 = 0 ∧
     calculate_emissions NODATA_FLOAT32 NODATA_UINT16 0 6 ≠ NODATA_FLOAT32) :=
  ⟨isclose_zero_zero,
   c10_zero_halflife_overrides_nodata NODATA_FLOAT32 NODATA_UINT16 0 6
     isclose_zero_zero⟩

end CoastalBlueCarbon
